import Mathlib

/-!
Verification of the libunftp control-channel command handlers and the
PROXY-mode passive-port assignment, shallowly embedded from the Rust
sources under `src/server/controlchan/commands/` and
`src/server/ftpserver.rs`.

Handlers are modelled as pure functions from the session state (plus the
inputs the handler reads) to the reply it returns, the updated session,
and the messages or signals it sends.  Channel send operations
(`tx.send(...)` spawned onto a background task) are recorded as values in
the result instead of performed as effects.
-/

namespace Unftp

/-- Reply codes used by the embedded handlers, mirroring the variants of
`ReplyCode` referenced from the sources. -/
inductive ReplyCode where
  | FileStatusOkay
  | CommandOkay
  | SystemStatus
  | FileStatus
  | ClosingDataConnection
  | EnteringPassiveMode
  | FileActionOkay
  | CantOpenDataConnection
  | TransientFileError
  | BadCommandSequence
  | Resp533
  | FileError
  deriving DecidableEq, Repr

/-- Modelled from the spec: the numeric value of each `ReplyCode` variant.
The enum definition (`controlchan/reply.rs`) is not among the provided
sources; the numbers are the RFC 959 / RFC 2228 codes that the spec's wire
protocol section refers to and that the variant names denote
(e.g. 150 file status okay, 226 closing data connection, 227 entering
passive mode, 425 cannot open data connection, 450 transient file error,
503 bad sequence of commands, 533, 550 file error). -/
def ReplyCode.toNat : ReplyCode → Nat
  | .FileStatusOkay => 150
  | .CommandOkay => 200
  | .SystemStatus => 211
  | .FileStatus => 213
  | .ClosingDataConnection => 226
  | .EnteringPassiveMode => 227
  | .FileActionOkay => 250
  | .CantOpenDataConnection => 425
  | .TransientFileError => 450
  | .BadCommandSequence => 503
  | .Resp533 => 533
  | .FileError => 550

/-- A reply as produced by a handler: none, a single line, or multiline,
mirroring `Reply::none()`, `Reply::new` and `Reply::new_multiline`. -/
inductive Reply where
  | none
  | codeAndMsg (code : ReplyCode) (msg : String)
  | multiLine (code : ReplyCode) (lines : List String)
  deriving DecidableEq, Repr

/-- The numeric code of a reply (0 for an empty reply). -/
def Reply.codeNum : Reply → Nat
  | .none => 0
  | .codeAndMsg c _ => c.toNat
  | .multiLine c _ => c.toNat

/-- An IP address, as matched by the `IpAddr::V4` / `IpAddr::V6` patterns. -/
inductive IpAddr where
  | v4 (a b c d : Nat)
  | v6 (x : Nat)
  deriving DecidableEq, Repr

/-- Whether an address is IPv4. -/
def IpAddr.isV4 : IpAddr → Bool
  | .v4 _ _ _ _ => true
  | .v6 _ => false

/-- The `ConnectionTuple` captured from a PROXY protocol header. -/
structure ConnectionTuple where
  from_ip : IpAddr
  from_port : Nat
  to_ip : IpAddr
  to_port : Nat
  deriving DecidableEq, Repr

/-- Command records sent through `data_cmd_tx`, mirroring the `Command`
variants the embedded handlers construct or forward. -/
inductive Command where
  | Stor (path : String)
  | Retr (path : String)
  | Other (name : String)
  deriving DecidableEq, Repr

/-- Messages posted on the internal event bus (`InternalMsg`). -/
inductive InternalMsg where
  | CommandChannelReply (code : ReplyCode) (text : String)
  | PlaintextControlChannel
  | StorageError (kind : Nat)
  deriving DecidableEq, Repr

/-- The per-connection session state, restricted to the fields the
embedded handlers read or write.  The single-slot option-held senders
(`data_cmd_tx`, `data_abort_tx`, `control_msg_tx`) are modelled by a
`Bool` that is `true` exactly when the slot holds a sender; `take()`
returns the old value and leaves the slot empty. -/
structure Session where
  cmd_tls : Bool
  rename_from : Option String
  start_pos : Nat
  data_cmd_tx : Bool
  data_abort_tx : Bool
  control_msg_tx : Bool
  control_connection_info : Option ConnectionTuple
  cwd : String
  deriving DecidableEq, Repr

/-- `PathBuf::join` on the session's cwd: appending a relative component
adds a separator unless one is already present; an absolute component
replaces the base. -/
def pathJoin (base p : String) : String :=
  if p.data.head? = some '/' then p
  else if base.data.getLast? = some '/' then base ++ p
  else base ++ "/" ++ p

/-- `Abor::handle` (src/server/controlchan/commands/abor.rs): take
`data_abort_tx`; if a sender was armed, send `()` on it (the `Bool` in
the result records that the abort signal was sent) and reply 226
`Closed data channel`; otherwise reply 226 `Data channel already closed`. -/
def aborHandle (s : Session) : Reply × Session × Bool :=
  match s.data_abort_tx with
  | true =>
      (Reply.codeAndMsg ReplyCode.ClosingDataConnection "Closed data channel",
       { s with data_abort_tx := false }, true)
  | false =>
      (Reply.codeAndMsg ReplyCode.ClosingDataConnection "Data channel already closed",
       s, false)

/-- `Ccc::handle` (src/server/controlchan/commands/ccc.rs): if `cmd_tls`,
post `PlaintextControlChannel` on the event bus and reply 200; otherwise
reply 533.  The session is only read, never written. -/
def cccHandle (s : Session) : Reply × Session × List InternalMsg :=
  if s.cmd_tls then
    (Reply.codeAndMsg ReplyCode.CommandOkay "control channel in plaintext now",
     s, [InternalMsg.PlaintextControlChannel])
  else
    (Reply.codeAndMsg ReplyCode.Resp533 "control channel already in plaintext mode",
     s, [])

/-- Modelled from the spec: the `FEATURE_RESTART` bit of the storage
feature bitset (`src/storage`, not among the provided sources); the spec
describes the bitset as holding currently just `RESTART`. -/
def FEATURE_RESTART : Nat := 1

/-- Lexicographic comparison of character lists by code point, the order
`Vec::sort` uses on `&str` (byte order coincides with code-point order on
the ASCII feature strings involved). -/
def charListLe : List Char → List Char → Bool
  | [], _ => true
  | _ :: _, [] => false
  | a :: as, b :: bs =>
      if a.toNat < b.toNat then true
      else if b.toNat < a.toNat then false
      else charListLe as bs

/-- Boolean string comparison used to model `Vec::sort` on `&str`
(lexicographic order). -/
def strLe (a b : String) : Bool := charListLe a.data b.data

/-- Insert into a sorted list, keeping it sorted under `strLe`. -/
def insertSorted (x : String) : List String → List String
  | [] => [x]
  | y :: ys => if strLe x y then x :: y :: ys else y :: insertSorted x ys

/-- Ascending sort of a list of strings, modelling `Vec::sort`. -/
def sortStrings : List String → List String
  | [] => []
  | x :: xs => insertSorted x (sortStrings xs)

/-- The lines of the FEAT reply built by `Feat::handle`
(src/server/controlchan/commands/feat.rs): start from
`[" SIZE", " MDTM", "UTF8"]`, add `" AUTH TLS"`, `" PBSZ"`, `" PROT"`
when TLS is configured, add `" REST STREAM"` when the storage feature
bitset has the RESTART bit, sort, then bracket with
`Extensions supported:` and `END`. -/
def featLines (tls_configured : Bool) (storage_features : Nat) : List String :=
  let l0 := [" SIZE", " MDTM", "UTF8"]
  let l1 := if tls_configured then l0 ++ [" AUTH TLS", " PBSZ", " PROT"] else l0
  let l2 := if storage_features &&& FEATURE_RESTART > 0 then l1 ++ [" REST STREAM"] else l1
  ("Extensions supported:" :: sortStrings l2) ++ ["END"]

/-- `Feat::handle`: a multiline 211 reply with `featLines`. -/
def featHandle (tls_configured : Bool) (storage_features : Nat) : Reply :=
  Reply.multiLine ReplyCode.SystemStatus (featLines tls_configured storage_features)

/-- `Rnto::handle` (src/server/controlchan/commands/rnto.rs): take
`rename_from`; if it was set, call `storage.rename(from, cwd.join(path))`
(the call is recorded as the `Option (String × String)` in the result,
`renameOk` standing for the backend outcome) and reply 250 / 550;
otherwise reply with `TransientFileError` and make no storage call. -/
def rntoHandle (path : String) (renameOk : Bool) (s : Session) :
    Reply × Session × Option (String × String) :=
  match s.rename_from with
  | some f =>
      (if renameOk then Reply.codeAndMsg ReplyCode.FileActionOkay "Renamed"
       else Reply.codeAndMsg ReplyCode.FileError "Storage error while renaming",
       { s with rename_from := none }, some (f, pathJoin s.cwd path))
  | none =>
      (Reply.codeAndMsg ReplyCode.TransientFileError
         "Please tell me what file you want to rename first",
       { s with rename_from := none }, none)

/-- `Stor::handle` (src/server/controlchan/commands/stor.rs): take
`data_cmd_tx`; if a sender was armed, send the command record through it
and reply 150 `Ready to receive data`; otherwise reply 425. -/
def storHandle (cmd : Command) (s : Session) : Reply × Session × Option Command :=
  match s.data_cmd_tx with
  | true =>
      (Reply.codeAndMsg ReplyCode.FileStatusOkay "Ready to receive data",
       { s with data_cmd_tx := false }, some cmd)
  | false =>
      (Reply.codeAndMsg ReplyCode.CantOpenDataConnection "No data connection established",
       s, none)

/-- `Stou::handle` (src/server/controlchan/commands/stou.rs): generate one
fresh UUID (passed in as `uuid`, the handler's only source of names), form
`path = cwd.join(uuid)`, then take `data_cmd_tx`; if a sender was armed,
send `Command::Stor { path }` and reply 150 with the generated filename;
otherwise reply 425.  The handler consults no backend state and contains
no retry logic. -/
def stouHandle (uuid : String) (s : Session) : Reply × Session × Option Command :=
  let path := pathJoin s.cwd uuid
  match s.data_cmd_tx with
  | true =>
      (Reply.codeAndMsg ReplyCode.FileStatusOkay uuid,
       { s with data_cmd_tx := false }, some (Command.Stor path))
  | false =>
      (Reply.codeAndMsg ReplyCode.CantOpenDataConnection "No data connection established",
       s, none)

/-- The u64 modulus. -/
def U64_MOD : Nat := 2 ^ 64

/-- Rust `u64` wrapping subtraction `a.wrapping_sub(b)` for `a, b < 2^64`
(the unguarded release-mode semantics of `a - b`). -/
def wrappingSub (a b : Nat) : Nat := (a + U64_MOD - b % U64_MOD) % U64_MOD

/-- `Size::handle` (src/server/controlchan/commands/size.rs): the handler
itself only reads the session under the lock and returns `Reply::none()`;
the spawned task posts the reply via the bus.  This is the synchronous
part. -/
def sizeHandle (s : Session) : Reply × Session := (Reply.none, s)

/-- The message the `Size` task posts on the bus when
`storage.metadata` succeeds with length `len`:
`CommandChannelReply(FileStatus, (metadata.len() - start_pos).to_string())`,
with the `u64` subtraction unguarded (wrapping). -/
def sizeSuccessMsg (len : Nat) (s : Session) : InternalMsg :=
  InternalMsg.CommandChannelReply ReplyCode.FileStatus
    (toString (wrappingSub len s.start_pos))

/-- Panics reachable from `select_and_register_passive_port`
(src/server/ftpserver.rs): `.unwrap()` on the failed port reservation,
and the `IpAddr::V6` match arm. -/
inductive Panic where
  | unwrapNone
  | v6Unreachable
  deriving DecidableEq, Repr

/-- First free port at or after `p`, scanning `n` candidate ports. -/
def findFreePort : Nat → Nat → List Nat → Option Nat
  | _, 0, _ => Option.none
  | p, Nat.succ n, reserved =>
      if reserved.contains p then findFreePort (p + 1) n reserved else some p

/-- Modelled from the spec: `ProxyProtocolSwitchboard::reserve_next_free_port`
(src/server/proxy_protocol.rs, not among the provided sources).  Per the
spec's reservation policy, ports are drawn from the range `[lo, hi)` in
ascending order, skipping those currently reserved; an exhausted pool
yields no port. -/
def reserve_next_free_port (lo hi : Nat) (reserved : List Nat) : Option Nat :=
  findFreePort lo (hi - lo) reserved

/-- The text of the 227 reply built by `select_and_register_passive_port`:
`Entering Passive Mode (h1,h2,h3,h4,p1,p2)`. -/
def pasvText (a b c d p1 p2 : Nat) : String :=
  "Entering Passive Mode (" ++ toString a ++ "," ++ toString b ++ "," ++ toString c
    ++ "," ++ toString d ++ "," ++ toString p1 ++ "," ++ toString p2 ++ ")"

/-- `Server::select_and_register_passive_port` (src/server/ftpserver.rs),
in PROXY mode (switchboard present), with the set of currently reserved
ports passed as `reserved`: reserve the next free port (`.unwrap()` on
failure is the `unwrapNone` panic), compute `p1 = port >> 8` and
`p2 = port - p1 * 256`, then, if the session carries its
`control_connection_info`, match the captured destination IP (the
`IpAddr::V6` arm panics) and post the 227 reply through `control_msg_tx`
when that sender is present.  The result records the posted message, if
any. -/
def select_and_register_passive_port (lo hi : Nat) (reserved : List Nat)
    (s : Session) : Except Panic (Option InternalMsg) :=
  match reserve_next_free_port lo hi reserved with
  | Option.none => Except.error Panic.unwrapNone
  | some port =>
      let p1 := port >>> 8
      let p2 := port - p1 * 256
      match s.control_connection_info with
      | Option.none => Except.ok Option.none
      | some conn =>
          match conn.to_ip with
          | IpAddr.v4 a b c d =>
              if s.control_msg_tx then
                Except.ok (some (InternalMsg.CommandChannelReply
                  ReplyCode.EnteringPassiveMode (pasvText a b c d p1 p2)))
              else Except.ok Option.none
          | IpAddr.v6 _ => Except.error Panic.v6Unreachable

/-- A quiescent session: plaintext, nothing staged, no slots armed. -/
def sess0 : Session :=
  { cmd_tls := false, rename_from := Option.none, start_pos := 0,
    data_cmd_tx := false, data_abort_tx := false, control_msg_tx := false,
    control_connection_info := Option.none, cwd := "/" }

/-- Connection tuple for the PROXY-mode theorems: destination 10.0.0.1. -/
def connC6 : ConnectionTuple :=
  { from_ip := IpAddr.v4 1 2 3 4, from_port := 40000,
    to_ip := IpAddr.v4 10 0 0 1, to_port := 2121 }

/-- A PROXY-mode session with its connection info and bus sender present. -/
def sessC6 : Session :=
  { sess0 with control_msg_tx := true, control_connection_info := some connC6 }

/-- Connection tuple whose captured destination address is IPv6. -/
def connC9 : ConnectionTuple :=
  { from_ip := IpAddr.v4 1 2 3 4, from_port := 40000,
    to_ip := IpAddr.v6 0, to_port := 2121 }

/-- A PROXY-mode session whose captured destination address is IPv6. -/
def sessC9 : Session :=
  { sess0 with control_msg_tx := true, control_connection_info := some connC9 }

/-- A session with a REST offset of 9 staged. -/
def sessSize : Session := { sess0 with start_pos := 9 }

/-- C1 counterexample: on a session with a transfer in flight
(`data_abort_tx` armed), the ABOR handler produces exactly one reply, and
its code is 226 (`Closed data channel`), not 426 — so ABOR during a
transfer does not produce the reply sequence 426 then 226 from the
handler. -/
theorem abor_inflight_not_426_then_226 :
    aborHandle { sess0 with data_abort_tx := true }
      = (Reply.codeAndMsg ReplyCode.ClosingDataConnection "Closed data channel",
         sess0, true)
    ∧ (aborHandle { sess0 with data_abort_tx := true }).1.codeNum = 226
    ∧ (aborHandle { sess0 with data_abort_tx := true }).1.codeNum ≠ 426 := by
  exact ⟨rfl, rfl, by decide⟩

/-- C1 (amended): ABOR always produces exactly one reply, with code 226:
when `data_abort_tx` is armed it empties the slot, sends the abort signal
and replies `Closed data channel`; when it is not armed it replies
`Data channel already closed` and sends nothing. -/
theorem abor_single_226 (s : Session) :
    aborHandle s =
      (if s.data_abort_tx then
        (Reply.codeAndMsg ReplyCode.ClosingDataConnection "Closed data channel",
         { s with data_abort_tx := false }, true)
       else
        (Reply.codeAndMsg ReplyCode.ClosingDataConnection "Data channel already closed",
         s, false))
    ∧ ReplyCode.ClosingDataConnection.toNat = 226 := by
  refine ⟨?_, rfl⟩
  cases h : s.data_abort_tx <;> simp [aborHandle, h]

/-- C2: the CCC handler replies 533 when `cmd_tls` is false, leaving the
session (hence `cmd_tls = false`) unchanged and posting nothing; when
`cmd_tls` is true it replies 200 and posts `PlaintextControlChannel` on
the event bus (the loop performs the actual downgrade). -/
theorem ccc_spec (s : Session) :
    cccHandle s =
      (if s.cmd_tls then
        (Reply.codeAndMsg ReplyCode.CommandOkay "control channel in plaintext now",
         s, [InternalMsg.PlaintextControlChannel])
       else
        (Reply.codeAndMsg ReplyCode.Resp533 "control channel already in plaintext mode",
         s, []))
    ∧ ReplyCode.CommandOkay.toNat = 200 ∧ ReplyCode.Resp533.toNat = 533
    ∧ (s.cmd_tls = false → ((cccHandle s).2.1.cmd_tls = false
        ∧ (cccHandle s).1.codeNum = 533)) := by
  refine ⟨?_, rfl, rfl, ?_⟩ <;> cases h : s.cmd_tls <;>
    simp [cccHandle, h, Reply.codeNum, ReplyCode.toNat]

/-- C3: evaluation of FEAT at a failing input.  With TLS off and no
storage features the reply lines are bracketed and sorted, but the `UTF8`
feature line carries no leading space, while every other feature line
does; with TLS on and RESTART advertised the same holds and the
conditional features appear. -/
theorem feat_utf8_line_unspaced :
    featLines false 0 = ["Extensions supported:", " MDTM", " SIZE", "UTF8", "END"]
    ∧ featLines true 1 = ["Extensions supported:", " AUTH TLS", " MDTM", " PBSZ",
        " PROT", " REST STREAM", " SIZE", "UTF8", "END"]
    ∧ "UTF8" ∈ featLines false 0 ∧ "UTF8".data.head? ≠ some ' '
    ∧ featHandle false 0 = Reply.multiLine ReplyCode.SystemStatus
        ["Extensions supported:", " MDTM", " SIZE", "UTF8", "END"] := by
  have h0 : featLines false 0 = ["Extensions supported:", " MDTM", " SIZE", "UTF8", "END"] := by
    simp only [featLines, FEATURE_RESTART, Nat.reduceAnd]
    decide
  have h1 : featLines true 1 = ["Extensions supported:", " AUTH TLS", " MDTM", " PBSZ",
      " PROT", " REST STREAM", " SIZE", "UTF8", "END"] := by
    simp only [featLines, FEATURE_RESTART, Nat.reduceAnd]
    decide
  refine ⟨h0, h1, ?_, by decide, ?_⟩
  · rw [h0]; decide
  · rw [featHandle, h0]

/-- C4 counterexample: on a session with `rename_from` unset, RNTO replies
with code 450 (`TransientFileError`), not 503, and makes no storage
rename call. -/
theorem rnto_unset_replies_450_not_503 :
    (rntoHandle "b.txt" true sess0).1.codeNum = 450
    ∧ (rntoHandle "b.txt" true sess0).1.codeNum ≠ 503
    ∧ (rntoHandle "b.txt" true sess0).2.2 = Option.none := by
  exact ⟨by decide, by decide, by decide⟩

/-- C4 (amended): for every session in which `rename_from` is not set,
RNTO replies 450 (`TransientFileError`, "Please tell me what file you want
to rename first") and the storage backend's rename is not invoked, leaving
the session (and the filesystem) unchanged. -/
theorem rnto_unset_spec (path : String) (renameOk : Bool) (s : Session)
    (h : s.rename_from = Option.none) :
    rntoHandle path renameOk s =
      (Reply.codeAndMsg ReplyCode.TransientFileError
        "Please tell me what file you want to rename first", s, Option.none)
    ∧ ReplyCode.TransientFileError.toNat = 450 := by
  obtain ⟨ct, rf, sp, dct, dat, cmt, cci, cw⟩ := s
  simp only at h
  subst h
  exact ⟨rfl, rfl⟩

/-- C4 witness. -/
theorem rnto_unset_spec_witness :
    sess0.rename_from = Option.none
    ∧ (rntoHandle "b.txt" true sess0 =
        (Reply.codeAndMsg ReplyCode.TransientFileError
          "Please tell me what file you want to rename first", sess0, Option.none)
       ∧ ReplyCode.TransientFileError.toNat = 450) :=
  ⟨rfl, rnto_unset_spec "b.txt" true sess0 rfl⟩

/-- C5: when `data_cmd_tx` is armed the STOR handler empties the slot,
sends the command record through it and replies 150
`Ready to receive data`; when it is not armed it replies 425. -/
theorem stor_spec (cmd : Command) (s : Session) :
    storHandle cmd s =
      (if s.data_cmd_tx then
        (Reply.codeAndMsg ReplyCode.FileStatusOkay "Ready to receive data",
         { s with data_cmd_tx := false }, some cmd)
       else
        (Reply.codeAndMsg ReplyCode.CantOpenDataConnection "No data connection established",
         s, Option.none))
    ∧ ReplyCode.FileStatusOkay.toNat = 150
    ∧ ReplyCode.CantOpenDataConnection.toNat = 425 := by
  refine ⟨?_, rfl, rfl⟩
  cases h : s.data_cmd_tx <;> simp [storHandle, h]

/-- Ports found by the free-port scan lie within the scanned window. -/
theorem findFreePort_bounds (n : Nat) :
    ∀ p q reserved, findFreePort p n reserved = some q → p ≤ q ∧ q < p + n := by
  induction n with
  | zero => intro p q r h; simp [findFreePort] at h
  | succ n ih =>
      intro p q r h
      simp only [findFreePort] at h
      cases hc : r.contains p <;> rw [hc] at h
      · have h' : some p = some q := h
        injection h' with h''
        omega
      · have h' : findFreePort (p + 1) n r = some q := h
        have := ih (p + 1) q r h'
        omega

/-- C6: in PROXY mode, a successful reservation yields a port in
`[lo, hi)`, and with an IPv4 captured destination address the 227 reply
posted on the bus encodes `(h1,h2,h3,h4,p1,p2)` with `h1..h4` the octets
of that address and `p1 * 256 + p2` decoding back to the reserved port. -/
theorem pasv_227_roundtrip (lo hi port : Nat) (reserved : List Nat) (s : Session)
    (conn : ConnectionTuple) (a b c d : Nat)
    (hres : reserve_next_free_port lo hi reserved = some port)
    (hconn : s.control_connection_info = some conn)
    (hip : conn.to_ip = IpAddr.v4 a b c d)
    (htx : s.control_msg_tx = true) :
    select_and_register_passive_port lo hi reserved s
      = Except.ok (some (InternalMsg.CommandChannelReply ReplyCode.EnteringPassiveMode
          (pasvText a b c d (port >>> 8) (port - (port >>> 8) * 256))))
    ∧ (port >>> 8) * 256 + (port - (port >>> 8) * 256) = port
    ∧ ReplyCode.EnteringPassiveMode.toNat = 227
    ∧ lo ≤ port ∧ port < hi := by
  have h8 : port >>> 8 = port / 256 := by
    rw [Nat.shiftRight_eq_div_pow]
  have hb := findFreePort_bounds (hi - lo) lo port reserved hres
  refine ⟨?_, ?_, rfl, ?_, ?_⟩
  · simp [select_and_register_passive_port, hres, hconn, hip, htx]
  · rw [h8]; omega
  · omega
  · omega

/-- C6 witness. -/
theorem pasv_227_roundtrip_witness :
    (reserve_next_free_port 20 30 [20] = some 21
     ∧ sessC6.control_connection_info = some connC6
     ∧ connC6.to_ip = IpAddr.v4 10 0 0 1
     ∧ sessC6.control_msg_tx = true)
    ∧ (select_and_register_passive_port 20 30 [20] sessC6
        = Except.ok (some (InternalMsg.CommandChannelReply ReplyCode.EnteringPassiveMode
            (pasvText 10 0 0 1 (21 >>> 8) (21 - (21 >>> 8) * 256))))
       ∧ (21 >>> 8) * 256 + (21 - (21 >>> 8) * 256) = 21
       ∧ ReplyCode.EnteringPassiveMode.toNat = 227
       ∧ 20 ≤ 21 ∧ 21 < 30) :=
  ⟨⟨by decide, rfl, rfl, rfl⟩,
   pasv_227_roundtrip 20 30 21 [20] sessC6 connC6 10 0 0 1 (by decide) rfl rfl rfl⟩

/-- C7: evaluation at the failing input.  With passive range `[20, 22)`
and both ports reserved, the reservation yields no port and
`select_and_register_passive_port` hits the `.unwrap()` panic instead of
posting any reply (in particular, no 425 reaches the client). -/
theorem pasv_exhaustion_panics :
    reserve_next_free_port 20 22 [20, 21] = Option.none
    ∧ select_and_register_passive_port 20 22 [20, 21] sessC6
        = Except.error Panic.unwrapNone := by
  exact ⟨by decide, rfl⟩

/-- C8 counterexample: on an armed session, the STOU handler generates
exactly one filename (the single fresh UUID), sends exactly one
`Command::Stor` for it, and replies 150 with that filename — never 550.
The handler's result is a function of the session and the one generated
name only, so no second name is ever generated on a collision. -/
theorem stou_no_regeneration :
    stouHandle "u0" { sess0 with data_cmd_tx := true }
      = (Reply.codeAndMsg ReplyCode.FileStatusOkay "u0", sess0,
         some (Command.Stor "/u0"))
    ∧ (stouHandle "u0" { sess0 with data_cmd_tx := true }).1.codeNum = 150
    ∧ (stouHandle "u0" { sess0 with data_cmd_tx := true }).1.codeNum ≠ 550 := by
  exact ⟨by decide, by decide, by decide⟩

/-- C8 (amended): STOU generates a single unique filename (one fresh
UUID) per invocation; when `data_cmd_tx` is armed it empties the slot,
sends one `Command::Stor` for `cwd.join(uuid)` and replies 150 with the
generated filename, and when it is not armed it replies 425.  No
regeneration on collision exists: the result never depends on backend
state and never carries code 550. -/
theorem stou_spec (uuid : String) (s : Session) :
    stouHandle uuid s =
      (if s.data_cmd_tx then
        (Reply.codeAndMsg ReplyCode.FileStatusOkay uuid,
         { s with data_cmd_tx := false }, some (Command.Stor (pathJoin s.cwd uuid)))
       else
        (Reply.codeAndMsg ReplyCode.CantOpenDataConnection "No data connection established",
         s, Option.none))
    ∧ (stouHandle uuid s).1.codeNum ≠ 550 := by
  cases h : s.data_cmd_tx <;>
    simp [stouHandle, h, Reply.codeNum, ReplyCode.toNat]

/-- C9: under a successful port reservation and a present connection
tuple, synthesizing the PASV reply succeeds (no panic) if and only if the
captured destination address is IPv4; on an IPv6 address the `IpAddr::V6`
match arm is an unconditional panic. -/
theorem pasv_total_iff_v4 (lo hi : Nat) (reserved : List Nat) (s : Session)
    (conn : ConnectionTuple)
    (hres : ∃ port, reserve_next_free_port lo hi reserved = some port)
    (hconn : s.control_connection_info = some conn) :
    ((∃ r, select_and_register_passive_port lo hi reserved s = Except.ok r)
      ↔ conn.to_ip.isV4 = true)
    ∧ (∀ x, conn.to_ip = IpAddr.v6 x →
        select_and_register_passive_port lo hi reserved s
          = Except.error Panic.v6Unreachable) := by
  obtain ⟨port, hp⟩ := hres
  constructor
  · cases hip : conn.to_ip with
    | v4 a b c d =>
        have hex : ∃ r, select_and_register_passive_port lo hi reserved s = Except.ok r := by
          cases htx : s.control_msg_tx
          · exact ⟨Option.none,
              by simp [select_and_register_passive_port, hp, hconn, hip, htx]⟩
          · exact ⟨some (InternalMsg.CommandChannelReply ReplyCode.EnteringPassiveMode
                (pasvText a b c d (port >>> 8) (port - (port >>> 8) * 256))),
              by simp [select_and_register_passive_port, hp, hconn, hip, htx]⟩
        simp [hex, hip, IpAddr.isV4]
    | v6 x =>
        simp [select_and_register_passive_port, hp, hconn, hip, IpAddr.isV4]
  · intro x hip
    simp [select_and_register_passive_port, hp, hconn, hip]

/-- C9 witness. -/
theorem pasv_total_iff_v4_witness :
    ((∃ port, reserve_next_free_port 20 30 [] = some port)
     ∧ sessC9.control_connection_info = some connC9)
    ∧ (((∃ r, select_and_register_passive_port 20 30 [] sessC9 = Except.ok r)
         ↔ connC9.to_ip.isV4 = true)
       ∧ (∀ x, connC9.to_ip = IpAddr.v6 x →
           select_and_register_passive_port 20 30 [] sessC9
             = Except.error Panic.v6Unreachable)) :=
  ⟨⟨⟨20, by decide⟩, rfl⟩,
   pasv_total_iff_v4 20 30 [] sessC9 connC9 ⟨20, by decide⟩ rfl⟩

/-- C10: the SIZE task posts a 213 reply whose text is
`metadata.len() - start_pos` under unguarded `u64` subtraction: it equals
`len - start_pos` when `start_pos ≤ len` and wraps modulo `2^64`
(to `2^64 + len - start_pos`) when `start_pos` exceeds the length; the
handler itself returns the empty reply and leaves the session, hence
`start_pos`, unchanged. -/
theorem size_wrapping (len : Nat) (s : Session)
    (hlen : len < U64_MOD) (hsp : s.start_pos < U64_MOD) :
    sizeSuccessMsg len s
      = InternalMsg.CommandChannelReply ReplyCode.FileStatus
          (toString (wrappingSub len s.start_pos))
    ∧ ReplyCode.FileStatus.toNat = 213
    ∧ (s.start_pos ≤ len → wrappingSub len s.start_pos = len - s.start_pos)
    ∧ (len < s.start_pos → wrappingSub len s.start_pos = U64_MOD + len - s.start_pos)
    ∧ sizeHandle s = (Reply.none, s) := by
  have hM : U64_MOD = 18446744073709551616 := by norm_num [U64_MOD]
  refine ⟨rfl, rfl, ?_, ?_, rfl⟩ <;> intro h <;>
    simp only [wrappingSub, hM] at * <;> omega

/-- C10 witness: with file length 5 and REST offset 9 the computed value
wraps. -/
theorem size_wrapping_witness :
    (5 < U64_MOD ∧ sessSize.start_pos < U64_MOD)
    ∧ sizeSuccessMsg 5 sessSize
        = InternalMsg.CommandChannelReply ReplyCode.FileStatus
            (toString (wrappingSub 5 sessSize.start_pos))
    ∧ wrappingSub 5 9 = U64_MOD + 5 - 9 := by
  have h := size_wrapping 5 sessSize (by norm_num [U64_MOD])
    (by norm_num [U64_MOD, sessSize, sess0])
  refine ⟨⟨by norm_num [U64_MOD], by norm_num [U64_MOD, sessSize, sess0]⟩, h.1, ?_⟩
  have h9 : sessSize.start_pos = 9 := rfl
  have := h.2.2.2.1 (by rw [h9]; norm_num)
  rwa [h9] at this

end Unftp
